import Mathlib

/-!
Verification of the TomatoPlan planning server against its specification.

This file gives a shallow embedding, in Lean, of the parts of the server
that the checked claims are about:

* the authentication service (`server/services/auth_service.py`):
  password checking, the failed-login counter and account lockout, and the
  login route of `server/routers/auth.py`;
* the session table (`server/models/user.py`, class UserSession) and every
  operation of the code that mutates it;
* the entity stores and routers for missions, chauffeurs, voyages and SST
  (`server/routers/missions.py`, `chauffeurs.py`, `voyages.py`, `sst.py`);
* the WebSocket hub (`server/services/websocket_manager.py`) and the
  attach endpoint of `server/main.py`;
* the backup service (`server/services/backup_service.py`).

Conventions of the embedding:

* Instants and civil dates are modelled as natural numbers (minutes on a
  global clock, respectively day indices); the server reads the clock at
  minute resolution wherever the claims look at it.
* External primitives (the bcrypt verifier, the JWT decoder, the SQLite
  engine's ORDER BY comparison) are modelled extensionally: the bcrypt
  hash of a password is identified with the password it validates, the
  outcome of a JWT decode is an input of the endpoint model, and the
  SQLite ascending order on a nullable column (NULLs first, then binary
  order) is spelled out as a relation.
* Fallible handlers return `Except` of an HTTP error carrying the status
  code and detail string that the Python handler raises.
* French messages of the source that contain a straight apostrophe are
  rendered with the typographic apostrophe.
* Text columns that no claim reads (telephone numbers, comments, colors)
  are elided from the records; every field a claim mentions is kept under
  its source name.
-/

namespace TomatoPlan

/-! ## AuthCore: password checking and lockout
    (`server/services/auth_service.py`) -/

/-- AuthService.MAX_FAILED_ATTEMPTS: failed attempts before lockout. -/
def MAX_FAILED_ATTEMPTS : Nat := 5

/-- AuthService.LOCKOUT_DURATION_MINUTES. -/
def LOCKOUT_DURATION_MINUTES : Nat := 15

/-- The fields of `server/models/user.py` class User that the login path
reads or writes.  `locked_until` is an optional instant in minutes. -/
structure AuthUser where
  username : String
  is_active : Bool
  password_hash : Option String
  failed_login_attempts : Nat
  locked_until : Option Nat
deriving Repr, DecidableEq

/-- AuthService.verify_password.  bcrypt verification is an external
primitive; it is modelled extensionally: a stored hash is identified with
the unique password it validates, so verification is string equality. -/
def verify_password (plain : String) (hashed : String) : Bool :=
  plain == hashed

/-- AuthService.check_account_locked (auth_service.py lines 139-155).
Returns ((is_locked, message), updated user): when the lock is still in
the future the account is locked; when the lock has expired it is cleared
and the failed-attempt counter is reset. -/
def check_account_locked (now : Nat) (user : AuthUser) :
    (Bool × String) × AuthUser :=
  match user.locked_until with
  | some t =>
    if now < t then
      ((true, "Compte verrouillé. Réessayez dans "
          ++ toString (t - now + 1) ++ " minutes."),
        user)
    else
      ((false, ""),
        { user with locked_until := none, failed_login_attempts := 0 })
  | none => ((false, ""), user)

/-- AuthService.record_failed_login (lines 157-167): increment the counter
and set the lock once the maximum is reached. -/
def record_failed_login (now : Nat) (user : AuthUser) : AuthUser :=
  let user :=
    { user with failed_login_attempts := user.failed_login_attempts + 1 }
  if MAX_FAILED_ATTEMPTS ≤ user.failed_login_attempts then
    { user with locked_until := some (now + LOCKOUT_DURATION_MINUTES) }
  else
    user

/-- AuthService.reset_failed_attempts (lines 169-175). -/
def reset_failed_attempts (user : AuthUser) : AuthUser :=
  if 0 < user.failed_login_attempts then
    { user with failed_login_attempts := 0, locked_until := none }
  else
    user

/-- Outcome of AuthService.authenticate: either success with the user's
post-state, or a ValueError message together with the user's post-state
(none when no user matched the username). -/
inductive AuthOutcome
  | success (user : AuthUser)
  | failure (message : String) (user : Option AuthUser)
deriving Repr, DecidableEq

def AuthOutcome.isFailure : AuthOutcome → Bool
  | .success _ => false
  | .failure _ _ => true

def AuthOutcome.postUser : AuthOutcome → Option AuthUser
  | .success u => some u
  | .failure _ u => u

/-- AuthService.authenticate (auth_service.py lines 179-262): the control
flow and the error messages, verbatim.  `user?` is the row found for the
normalized username (none when the username matches no stored user).
Session creation on success is modelled separately by `applyOp`. -/
def authenticate (now : Nat) (user? : Option AuthUser) (password : String) :
    AuthOutcome :=
  match user? with
  | none => .failure ("Identifiants invalides") none
  | some user =>
    if user.is_active = false then
      .failure ("Compte désactivé. Contactez l’administrateur.") (some user)
    else
      let lockRes := check_account_locked now user
      let user := lockRes.2
      if lockRes.1.1 = true then
        .failure lockRes.1.2 (some user)
      else
        match user.password_hash with
        | none =>
            .failure ("Compte non configuré. Contactez l’administrateur.")
              (some user)
        | some hash =>
          if verify_password password hash = false then
            let user := record_failed_login now user
            let remaining : Int :=
              (MAX_FAILED_ATTEMPTS : Int) - user.failed_login_attempts
            if 0 < remaining then
              .failure
                ("Mot de passe incorrect. " ++ toString remaining
                  ++ " tentative(s) restante(s).")
                (some user)
            else
              .failure
                ("Compte verrouillé pour "
                  ++ toString LOCKOUT_DURATION_MINUTES ++ " minutes.")
                (some user)
          else
            .success (reset_failed_attempts user)

/-- An HTTP error response: status code and detail string, as raised by
`HTTPException(status_code=..., detail=...)`. -/
structure HttpError where
  status_code : Nat
  detail : String
deriving Repr, DecidableEq

deriving instance DecidableEq for Except

/-- The POST /auth/login handler (`server/routers/auth.py` login): a
ValueError from authenticate is mapped to HTTP 401 whose detail is the
error text. -/
def login_route (now : Nat) (user? : Option AuthUser) (password : String) :
    Except HttpError AuthUser :=
  match authenticate now user? password with
  | .success u => .ok u
  | .failure msg _ => .error { status_code := 401, detail := msg }

/-! ## The session table and its mutating operations
    (`server/models/user.py` class UserSession; mutators in
    `auth_service.py`, `routers/auth.py`, `routers/admin.py`) -/

/-- A row of the user_sessions table.  `is_active` defaults to true on
insertion (column default). -/
structure UserSession where
  session_id : String
  user_id : Nat
  created_at : Nat
  last_activity : Nat
  expires_at : Nat
  is_active : Bool
deriving Repr, DecidableEq

/-- A freshly inserted session row, as built by AuthService.authenticate
and by the refresh route: is_active true, last_activity = created_at. -/
def mkSession (sid : String) (uid : Nat) (now : Nat) (expires : Nat) :
    UserSession :=
  { session_id := sid, user_id := uid, created_at := now,
    last_activity := now, expires_at := expires, is_active := true }

/-- Every operation of the code that mutates the user_sessions table.
`login` is the insert of AuthService.authenticate; `logout` is
AuthService.logout (sid already extracted from the decoded token);
`validate` is AuthService.validate_token; `force_disconnect` is
AuthService.force_disconnect_user; `refresh` is POST /auth/refresh
(logout of the old session then insert of a new one); `kick` and
`kickAll` are the admin row deletions; `sweep` is the scheduler's
expired-session sweep of spec §4.6, which has no counterpart under src
and is modelled from the spec (mark expired sessions inactive). -/
inductive SessionOp
  | login (sid : String) (uid : Nat) (now : Nat) (expires : Nat)
  | logout (sid : String)
  | validate (sid : String) (now : Nat)
  | force_disconnect (uid : Nat)
  | refresh (oldSid : String) (newSid : String) (uid : Nat) (now : Nat)
      (expires : Nat)
  | kick (sid : String)
  | kickAll
  | sweep (now : Nat)
deriving Repr, DecidableEq

/-- Session ids of the rows an operation inserts. -/
def newSids : SessionOp → List String
  | .login sid _ _ _ => [sid]
  | .refresh _ newSid _ _ _ => [newSid]
  | _ => []

/-- Effect of one operation on the session table.  Translated from the
corresponding source function in each case. -/
def applyOp (t : List UserSession) : SessionOp → List UserSession
  | .login sid uid now expires => t ++ [mkSession sid uid now expires]
  | .logout sid =>
      t.map fun s =>
        if s.session_id = sid then { s with is_active := false } else s
  | .validate sid now =>
      t.map fun s =>
        if s.session_id = sid ∧ s.is_active = true ∧ now < s.expires_at then
          { s with last_activity := now }
        else s
  | .force_disconnect uid =>
      t.map fun s =>
        if s.user_id = uid ∧ s.is_active = true then
          { s with is_active := false }
        else s
  | .refresh oldSid newSid uid now expires =>
      (t.map fun s =>
        if s.session_id = oldSid then { s with is_active := false } else s)
        ++ [mkSession newSid uid now expires]
  | .kick sid => t.filter fun s => !(s.session_id == sid)
  | .kickAll => []
  | .sweep now =>
      t.map fun s =>
        if s.expires_at ≤ now then { s with is_active := false } else s

/-- A trace of operations applied in order. -/
def applyOps (t : List UserSession) : List SessionOp → List UserSession
  | [] => t
  | op :: ops => applyOps (applyOp t op) ops

/-- Every row of the table carrying the given session id is inactive. -/
def DeadSid (t : List UserSession) (sid : String) : Prop :=
  ∀ u ∈ t, u.session_id = sid → u.is_active = false

/-! ## LiveSyncHub envelopes
    (`server/services/websocket_manager.py`) -/

/-- A change envelope as built by WebSocketManager.broadcast_data_change:
broadcast of type data_changed with the entity, action, entity id and the
author of the change. -/
structure Envelope where
  msg_type : String
  entity : String
  action : String
  entity_id : Option Nat
  changed_by : Option String
deriving Repr, DecidableEq

/-- notify_change (websocket_manager.py lines 255-279): one data_changed
envelope broadcast to every connected client. -/
def notify_change (entity : String) (action : String)
    (entity_id : Option Nat) (changed_by : Option String) : Envelope :=
  { msg_type := "data_changed", entity := entity, action := action,
    entity_id := entity_id, changed_by := changed_by }

/-! ## String primitives of the embedding

Python's str.upper and the byte-wise comparison SQLite applies under
ORDER BY are spelled out on the character codes, so that they evaluate
inside proofs. -/

/-- Python str.upper, character-wise (the codes appearing in the data are
ASCII). -/
def py_upper (s : String) : String :=
  String.mk (s.data.map Char.toUpper)

/-- Lexicographic strict order on code sequences (memcmp order). -/
def lexLt : List Nat → List Nat → Bool
  | [], [] => false
  | [], _ :: _ => true
  | _ :: _, [] => false
  | a :: as, b :: bs =>
    if a < b then true
    else if b < a then false
    else lexLt as bs

/-- The code sequence of a string. -/
def str_bytes (s : String) : List Nat :=
  s.data.map Char.toNat

/-- Strict binary order on strings (SQLite's default text comparison for
the ASCII data at hand). -/
def str_lt (x : String) (y : String) : Bool :=
  lexLt (str_bytes x) (str_bytes y)

theorem lexLt_asymm (a : List Nat) :
    ∀ b : List Nat, lexLt a b = true → lexLt b a = false := by
  induction a with
  | nil => intro b h; cases b with
    | nil => simp [lexLt] at h
    | cons x xs => simp [lexLt]
  | cons x xs ih =>
    intro b h
    cases b with
    | nil => simp [lexLt] at h
    | cons y ys =>
      simp only [lexLt] at h ⊢
      by_cases hxy : x < y
      case pos =>
        have hyx : ¬ y < x := by omega
        simp [hxy, hyx]
      case neg =>
        by_cases hyx : y < x
        case pos => simp [hxy, hyx] at h
        case neg =>
          simp only [if_neg hxy, if_neg hyx] at h ⊢
          exact ih ys h

theorem lexLt_connex (a : List Nat) :
    ∀ b : List Nat, lexLt a b = false → lexLt b a = false → a = b := by
  induction a with
  | nil => intro b h1 _; cases b with
    | nil => rfl
    | cons y ys => simp [lexLt] at h1
  | cons x xs ih =>
    intro b h1 h2
    cases b with
    | nil => simp [lexLt] at h2
    | cons y ys =>
      simp only [lexLt] at h1 h2
      by_cases hxy : x < y
      case pos => simp [hxy] at h1
      case neg =>
        by_cases hyx : y < x
        case pos => simp [hxy, hyx] at h2
        case neg =>
          have hx : x = y := by omega
          simp only [if_neg hxy, if_neg hyx] at h1
          simp only [if_neg hyx, if_neg hxy] at h2
          rw [hx, ih ys h1 h2]

theorem lexLt_trans (a : List Nat) :
    ∀ b c : List Nat, lexLt a b = true → lexLt b c = true →
      lexLt a c = true := by
  induction a with
  | nil =>
    intro b c h1 h2
    cases b with
    | nil => simp [lexLt] at h1
    | cons y ys =>
      cases c with
      | nil => simp [lexLt] at h2
      | cons z zs => simp [lexLt]
  | cons x xs ih =>
    intro b c h1 h2
    cases b with
    | nil => simp [lexLt] at h1
    | cons y ys =>
      cases c with
      | nil => simp [lexLt] at h2
      | cons z zs =>
        simp only [lexLt] at h1 h2 ⊢
        by_cases hxy : x < y
        case pos =>
          by_cases hyz : y < z
          case pos =>
            have hxz : x < z := by omega
            simp [hxz]
          case neg =>
            by_cases hzy : z < y
            case pos => simp [hyz, hzy] at h2
            case neg =>
              have hxz : x < z := by omega
              simp [hxz]
        case neg =>
          by_cases hyx : y < x
          case pos => simp [hxy, hyx] at h1
          case neg =>
            have hx : x = y := by omega
            simp only [if_neg hxy, if_neg hyx] at h1
            by_cases hyz : y < z
            case pos =>
              have hxz : x < z := by omega
              simp [hxz]
            case neg =>
              by_cases hzy : z < y
              case pos => simp [hyz, hzy] at h2
              case neg =>
                have hxz1 : ¬ x < z := by omega
                have hxz2 : ¬ z < x := by omega
                simp only [if_neg hyz, if_neg hzy] at h2
                simp only [if_neg hxz1, if_neg hxz2]
                exact ih ys zs h1 h2

/-! ## Chauffeurs (`server/routers/chauffeurs.py`,
    `server/models/chauffeur.py`) -/

/-- A Chauffeur row (fields the claims read). -/
structure Chauffeur where
  id : Nat
  code : String
  nom : String
  prenom : String
  is_active : Bool
deriving Repr, DecidableEq

/-- Derived property nom_complet of the Chauffeur model. -/
def Chauffeur.nom_complet (c : Chauffeur) : String :=
  c.prenom ++ (" ") ++ c.nom

/-- Body of POST /chauffeurs (schema ChauffeurCreate; fields the claims
read, with the schema defaults). -/
structure ChauffeurCreate where
  code : String
  nom : String
  prenom : String
  is_active : Bool := true
deriving Repr, DecidableEq

/-- Autoincrement primary key: one more than the largest id in the store. -/
def nextChauffeurId (store : List Chauffeur) : Nat :=
  (store.foldl (fun m c => max m c.id) 0) + 1

/-- create_chauffeur (chauffeurs.py lines 159-202): duplicate upper-cased
code is rejected with HTTP 400 before anything is stored; otherwise the
row is inserted with the code upper-cased and a data_changed envelope for
chauffeurs/created is broadcast.  Returns ((result, new store),
broadcast envelopes). -/
def create_chauffeur (store : List Chauffeur) (data : ChauffeurCreate)
    (username : String) :
    (Except HttpError Chauffeur × List Chauffeur) × List Envelope :=
  if store.any (fun c => c.code == py_upper data.code) then
    ((.error { status_code := 400,
               detail := "Un chauffeur avec le code ’" ++ data.code
                 ++ "’ existe déjà" }, store), [])
  else
    let c : Chauffeur :=
      { id := nextChauffeurId store, code := py_upper data.code,
        nom := data.nom, prenom := data.prenom,
        is_active := data.is_active }
    ((.ok c, store ++ [c]),
      [notify_change ("chauffeurs") ("created") (some c.id) (some username)])

/-- A ChauffeurDispo row: an unavailability window (inclusive dates). -/
structure ChauffeurDispo where
  id : Nat
  chauffeur_id : Nat
  date_debut : Nat
  date_fin : Nat
deriving Repr, DecidableEq

/-- The projection returned by GET /chauffeurs/disponibles/{D} for each
driver. -/
structure DispoListing where
  id : Nat
  code : String
  nom_complet : String
deriving Repr, DecidableEq

def Chauffeur.listing (c : Chauffeur) : DispoListing :=
  { id := c.id, code := c.code, nom_complet := c.nom_complet }

/-- The local indispo_ids of get_chauffeurs_disponibles: ids of drivers
having an unavailability whose inclusive window covers the date. -/
def indispo_ids (dispos : List ChauffeurDispo) (check_date : Nat) :
    List Nat :=
  (dispos.filter (fun dp =>
      decide (dp.date_debut ≤ check_date ∧ check_date ≤ dp.date_fin))).map
    (fun dp => dp.chauffeur_id)

/-- get_chauffeurs_disponibles (chauffeurs.py lines 379-420): take the
active drivers, collect the ids of drivers with an unavailability
covering the date, and split the active drivers on membership of that id
set.  Returns (disponibles, indisponibles). -/
def get_chauffeurs_disponibles (chauffeurs : List Chauffeur)
    (dispos : List ChauffeurDispo) (check_date : Nat) :
    List DispoListing × List DispoListing :=
  let actifs := chauffeurs.filter (fun c => c.is_active)
  let disponibles :=
    actifs.filter (fun c => decide (¬ c.id ∈ indispo_ids dispos check_date))
  let indisponibles :=
    actifs.filter (fun c => decide (c.id ∈ indispo_ids dispos check_date))
  (disponibles.map Chauffeur.listing, indisponibles.map Chauffeur.listing)

/-! ## Voyages and SST (`server/routers/voyages.py`,
    `server/routers/sst.py`) -/

/-- A Voyage row (fields the claims read). -/
structure Voyage where
  id : Nat
  code : String
  nom : String
  is_active : Bool
deriving Repr, DecidableEq

/-- Body of POST /voyages (fields the claims read). -/
structure VoyageCreate where
  code : String
  nom : String
  is_active : Bool := true
deriving Repr, DecidableEq

def nextVoyageId (store : List Voyage) : Nat :=
  (store.foldl (fun m v => max m v.id) 0) + 1

/-- create_voyage (voyages.py lines 136-176): duplicate upper-cased code
is rejected with HTTP 400; otherwise the row is stored with the code
upper-cased.  No envelope is broadcast (voyages.py never calls
notify_change). -/
def create_voyage (store : List Voyage) (data : VoyageCreate)
    (username : String) :
    (Except HttpError Voyage × List Voyage) × List Envelope :=
  if store.any (fun v => v.code == py_upper data.code) then
    ((.error { status_code := 400,
               detail := "Un voyage avec le code ’" ++ data.code
                 ++ "’ existe déjà" }, store), [])
  else
    let v : Voyage :=
      { id := nextVoyageId store, code := py_upper data.code,
        nom := data.nom, is_active := data.is_active }
    ((.ok v, store ++ [v]), [])

/-- An SST (subcontractor) row (fields the claims read). -/
structure SST where
  id : Nat
  code : String
  nom : String
  is_active : Bool
deriving Repr, DecidableEq

/-- Body of POST /sst (fields the claims read). -/
structure SSTCreate where
  code : String
  nom : String
  is_active : Bool := true
deriving Repr, DecidableEq

def nextSSTId (store : List SST) : Nat :=
  (store.foldl (fun m s => max m s.id) 0) + 1

/-- create_sst (sst.py): duplicate upper-cased code is rejected with HTTP
400; otherwise the row is stored with the code upper-cased.  No envelope
is broadcast. -/
def create_sst (store : List SST) (data : SSTCreate) (username : String) :
    (Except HttpError SST × List SST) × List Envelope :=
  if store.any (fun s => s.code == py_upper data.code) then
    ((.error { status_code := 400,
               detail := "Un SST avec le code ’" ++ data.code
                 ++ "’ existe deja" }, store), [])
  else
    let s : SST :=
      { id := nextSSTId store, code := py_upper data.code,
        nom := data.nom, is_active := data.is_active }
    ((.ok s, store ++ [s]), [])

/-! ## Missions (`server/routers/missions.py`,
    `server/models/mission.py`) -/

/-- A Mission row (fields the claims read).  `heure_debut` and
`heure_fin` are optional HH:MM strings as in the model (String(5));
`nb_palettes` is an optional signed integer with column default 0. -/
structure Mission where
  id : Nat
  date_mission : Nat
  heure_debut : Option String
  heure_fin : Option String
  voyage_id : Option Nat
  chauffeur_id : Option Nat
  sst_id : Option Nat
  nb_palettes : Option Int
  statut : String
  created_by : Option String
  updated_by : Option String
deriving Repr, DecidableEq

/-- Body of POST /missions (schema MissionCreate = MissionBase of
missions.py lines 22-46, fields the claims read, schema defaults kept).
Pydantic validates only the declared types: MissionBase states no lower
bound on nb_palettes and no ordering between heure_debut and heure_fin,
so every well-typed value of this structure is accepted by the route. -/
structure MissionCreate where
  date_mission : Nat
  heure_debut : Option String := none
  heure_fin : Option String := none
  voyage_id : Option Nat := none
  chauffeur_id : Option Nat := none
  sst_id : Option Nat := none
  nb_palettes : Option Int := some 0
  statut : String := "planifie"
deriving Repr, DecidableEq

/-- Body of PUT /missions/{id} (schema MissionUpdate, all fields
optional; a `none` field is absent from the patch, matching
model_dump with unset fields excluded). -/
structure MissionUpdate where
  date_mission : Option Nat := none
  heure_debut : Option (Option String) := none
  heure_fin : Option (Option String) := none
  chauffeur_id : Option (Option Nat) := none
  nb_palettes : Option (Option Int) := none
  statut : Option String := none
deriving Repr, DecidableEq

def nextMissionId (store : List Mission) : Nat :=
  (store.foldl (fun m x => max m x.id) 0) + 1

/-- create_mission (missions.py lines 191-222): builds the row from the
body with the caller as created_by/updated_by, commits, logs, and
returns.  The handler calls no notify_change, so the broadcast list is
empty. -/
def create_mission (store : List Mission) (data : MissionCreate)
    (username : String) :
    ((Mission × List Mission) × List Envelope) :=
  let m : Mission :=
    { id := nextMissionId store, date_mission := data.date_mission,
      heure_debut := data.heure_debut, heure_fin := data.heure_fin,
      voyage_id := data.voyage_id, chauffeur_id := data.chauffeur_id,
      sst_id := data.sst_id, nb_palettes := data.nb_palettes,
      statut := data.statut, created_by := some username,
      updated_by := some username }
  ((m, store ++ [m]), [])

/-- setattr loop of update_mission: overwrite exactly the fields present
in the patch, then set updated_by to the caller. -/
def applyMissionPatch (m : Mission) (patch : MissionUpdate)
    (username : String) : Mission :=
  { m with
    date_mission := patch.date_mission.getD m.date_mission,
    heure_debut := patch.heure_debut.getD m.heure_debut,
    heure_fin := patch.heure_fin.getD m.heure_fin,
    chauffeur_id := patch.chauffeur_id.getD m.chauffeur_id,
    nb_palettes := patch.nb_palettes.getD m.nb_palettes,
    statut := patch.statut.getD m.statut,
    updated_by := some username }

/-- update_mission (missions.py lines 225-276): 404 when the id is
unknown, otherwise apply the patch and commit.  No notify_change call,
so the broadcast list is empty. -/
def update_mission (store : List Mission) (mission_id : Nat)
    (patch : MissionUpdate) (username : String) :
    ((Except HttpError Mission × List Mission) × List Envelope) :=
  match (store.filter (fun m => m.id == mission_id)).head? with
  | none =>
      ((.error { status_code := 404,
                 detail := s!"Mission {mission_id} non trouvée" }, store), [])
  | some m =>
      let m2 := applyMissionPatch m patch username
      ((.ok m2,
        store.map (fun x => if x.id == mission_id then m2 else x)), [])

/-- delete_mission (missions.py lines 279-320): 404 when the id is
unknown, otherwise hard delete.  No notify_change call, so the broadcast
list is empty. -/
def delete_mission (store : List Mission) (mission_id : Nat)
    (username : String) :
    ((Except HttpError Unit × List Mission) × List Envelope) :=
  match (store.filter (fun m => m.id == mission_id)).head? with
  | none =>
      ((.error { status_code := 404,
                 detail := s!"Mission {mission_id} non trouvée" }, store), [])
  | some _ =>
      ((.ok (), store.filter (fun m => !(m.id == mission_id))), [])

/-- create_missions_bulk (missions.py lines 323-359): insert every body
in order.  No notify_change call, so the broadcast list is empty. -/
def create_missions_bulk (store : List Mission) (bodies : List MissionCreate)
    (username : String) :
    ((List Mission × List Mission) × List Envelope) :=
  match bodies with
  | [] => (([], store), [])
  | data :: rest =>
      let step := create_mission store data username
      let tail := create_missions_bulk step.1.2 rest username
      ((step.1.1 :: tail.1.1, tail.1.2), [])

/-- The ascending order SQLite uses for ORDER BY on the nullable
heure_debut column: NULL sorts before every value, values compare in
binary order. -/
def heure_le (a : Option String) (b : Option String) : Prop :=
  match a, b with
  | none, _ => True
  | some _, none => False
  | some x, some y => str_lt y x = false

instance : DecidableRel heure_le := fun a b =>
  match a, b with
  | none, _ => isTrue trivial
  | some _, none => isFalse id
  | some x, some y => inferInstanceAs (Decidable (str_lt y x = false))

/-- Row order of GET /missions/by-date/{D}: by heure_debut under the
SQLite ascending order. -/
def mission_order (m1 : Mission) (m2 : Mission) : Prop :=
  heure_le m1.heure_debut m2.heure_debut

instance : DecidableRel mission_order := fun m1 m2 =>
  inferInstanceAs (Decidable (heure_le m1.heure_debut m2.heure_debut))

theorem str_lt_le_total (x : String) (y : String) :
    str_lt y x = false ∨ str_lt x y = false := by
  cases h : str_lt y x
  case false => exact Or.inl rfl
  case true => exact Or.inr (lexLt_asymm (str_bytes y) (str_bytes x) h)

theorem str_lt_le_trans (x : String) (y : String) (z : String) :
    str_lt y x = false → str_lt z y = false → str_lt z x = false := by
  unfold str_lt
  intro h1 h2
  cases h3 : lexLt (str_bytes z) (str_bytes x)
  case false => rfl
  case true =>
    cases h4 : lexLt (str_bytes x) (str_bytes y)
    case true =>
      have h5 := lexLt_trans (str_bytes z) (str_bytes x) (str_bytes y) h3 h4
      rw [h2] at h5
      exact h5.symm
    case false =>
      have hxy : str_bytes x = str_bytes y :=
        lexLt_connex (str_bytes x) (str_bytes y) h4 h1
      rw [← hxy] at h2
      rw [h2] at h3
      exact h3.symm

theorem heure_le_total (a : Option String) (b : Option String) :
    heure_le a b ∨ heure_le b a := by
  cases a with
  | none => exact Or.inl trivial
  | some x =>
    cases b with
    | none => exact Or.inr trivial
    | some y => exact str_lt_le_total x y

theorem heure_le_trans (a : Option String) (b : Option String)
    (c : Option String) : heure_le a b → heure_le b c → heure_le a c := by
  cases a with
  | none => intro _ _; exact trivial
  | some x =>
    cases b with
    | none => intro h _; exact absurd h id
    | some y =>
      cases c with
      | none => intro _ h; exact absurd h id
      | some z =>
        intro h1 h2
        exact str_lt_le_trans x y z h1 h2

instance : IsTotal Mission mission_order :=
  ⟨fun a b => heure_le_total a.heure_debut b.heure_debut⟩

instance : IsTrans Mission mission_order :=
  ⟨fun a b c => heure_le_trans a.heure_debut b.heure_debut c.heure_debut⟩

/-- get_missions_by_date (missions.py lines 134-146): the missions of the
date, ordered by heure_debut ascending as SQLite orders the nullable
column.  The engine's sort is realized by insertion sort; the claims do
not distinguish orders among equal keys. -/
def get_missions_by_date (store : List Mission) (d : Nat) : List Mission :=
  List.insertionSort mission_order
    (store.filter (fun m => m.date_mission == d))

/-! ## Push-channel attach (`server/main.py` websocket_endpoint,
    `websocket_manager.py` WebSocketManager.connect) -/

/-- Outcome of jwt.decode on the supplied token: the decoder is an
external primitive, so its verdict is an input of the endpoint model.
`ok` carries the sub claim of the payload (absent when the payload has
no sub). -/
inductive JwtDecodeResult
  | expired
  | invalid
  | ok (sub : Option String)
deriving Repr, DecidableEq

/-- Result of an attach attempt on GET /ws. -/
inductive WsAttachResult
  | closed (code : Nat) (reason : String)
  | registered (client_username : String)
deriving Repr, DecidableEq

/-- websocket_endpoint (main.py lines 528-554) up to the registration in
WebSocketManager.connect, which appends the client to the registry.  The
registry is the list of usernames of registered push clients.  A missing
token is allowed through as the user anonymous; a supplied token is only
decoded — no session or user lookup happens. -/
def websocket_attach (registry : List String)
    (token : Option JwtDecodeResult) : WsAttachResult × List String :=
  match token with
  | none => (.registered ("anonymous"), registry ++ [("anonymous")])
  | some .expired => (.closed 4001 ("Token expiré"), registry)
  | some .invalid => (.closed 4002 ("Token invalide"), registry)
  | some (.ok sub) =>
      let username := sub.getD ("anonymous")
      (.registered username, registry ++ [username])

/-! ## Backup restore (`server/services/backup_service.py`,
    `server/routers/admin.py` restore route) -/

/-- The files the restore path touches: the named snapshots of the backup
directory and the live database file (none when absent), each with its
content. -/
structure BackupFs where
  snapshots : List (String × String)
  live : Option String
deriving Repr, DecidableEq

/-- A Python exception escaping restore_backup. -/
inductive PyExn
  | fileNotFound (msg : String)
  | nameError (name : String)
deriving Repr, DecidableEq

/-- The success dictionary of restore_backup. -/
structure RestoreResult where
  success : Bool
  restored_from : String
  safety_backup : Option String
deriving Repr, DecidableEq

def lookupSnapshot (fs : BackupFs) (name : String) : Option String :=
  ((fs.snapshots.filter (fun p => p.1 == name)).head?).map (fun p => p.2)

/-- restore_backup (backup_service.py lines 96-123).  The Python local
safety_backup is bound only inside the branch taken when the live
database file exists; it is modelled as an Option that is none when that
branch was not taken.  The returned dictionary evaluates
safety_backup when db_path exists at return time — the restore copy has
just made it exist — and reading the local while unbound raises
NameError, after the copy already replaced the live file. -/
def restore_backup (fs : BackupFs) (backup_filename : String)
    (safety_name : String) : Except PyExn RestoreResult × BackupFs :=
  match lookupSnapshot fs backup_filename with
  | none => (.error (.fileNotFound ("Backup non trouvé: " ++ backup_filename)), fs)
  | some content =>
    let step :=
      match fs.live with
      | some liveContent =>
          (some safety_name,
            { fs with snapshots := fs.snapshots ++ [(safety_name, liveContent)] })
      | none => ((none : Option String), fs)
    let fs2 : BackupFs := { step.2 with live := some content }
    let result : Except PyExn RestoreResult :=
      if fs2.live.isSome then
        match step.1 with
        | some n =>
            Except.ok { success := true, restored_from := backup_filename,
                        safety_backup := some n }
        | none => Except.error (PyExn.nameError ("safety_backup"))
      else
        Except.ok { success := true, restored_from := backup_filename,
                    safety_backup := none }
    (result, fs2)

/-- POST /admin/backups/restore/{filename} (admin.py): FileNotFoundError
is caught and mapped to 404; any other exception (the NameError) escapes
the handler and surfaces as HTTP 500 Internal at the framework
boundary. -/
def restore_backup_route (fs : BackupFs) (backup_filename : String)
    (safety_name : String) : Except HttpError RestoreResult × BackupFs :=
  match restore_backup fs backup_filename safety_name with
  | (.error (.fileNotFound m), fs2) =>
      (.error { status_code := 404, detail := m }, fs2)
  | (.error (.nameError _), fs2) =>
      (.error { status_code := 500, detail := "Internal Server Error" }, fs2)
  | (.ok r, fs2) => (.ok r, fs2)

/-! ## Sample data used by concrete theorems -/

/-- The mission body of the fan-out scenario (spec §8 scenario 1), day
index for 2025-03-12. -/
def c1_body : MissionCreate :=
  { date_mission := 20160, voyage_id := some 7, chauffeur_id := some 3,
    nb_palettes := some 12 }

def c1_store : List Mission :=
  (create_mission [] c1_body ("PLANNER1")).1.2

def c3_chauffeurs : List Chauffeur :=
  [{ id := 1, code := "ABC", nom := "Martin", prenom := "Paul",
     is_active := true }]

def c3_dup : ChauffeurCreate :=
  { code := "abc", nom := "Durand", prenom := "Jean" }

def c6_bad : MissionCreate :=
  { date_mission := 100, heure_debut := some ("10:00"),
    heure_fin := some ("08:00"), nb_palettes := some (-1) }

/-! ## Claim theorems -/

/-- Claim C1: every successful mutating mission handler (POST, PUT,
DELETE, POST bulk) is supposed to post a data_changed envelope to the
LiveSyncHub after its transaction commits, so that other connected push
clients receive it.  Evaluating the handlers at the scenario input shows
all four broadcast nothing — missions.py never calls notify_change —
while the chauffeur create handler, which does call notify_change,
broadcasts exactly one data_changed envelope.  Since the hub broadcasts
only what handlers post, no connected client receives anything for a
mission mutation. -/
theorem C1_mission_handlers_broadcast_nothing :
    (create_mission [] c1_body ("PLANNER1")).2 = [] ∧
    (update_mission c1_store 1 { statut := some ("en_cours") }
      ("PLANNER1")).2 = [] ∧
    (delete_mission c1_store 1 ("PLANNER1")).2 = [] ∧
    (create_missions_bulk [] [c1_body] ("PLANNER1")).2 = [] ∧
    (create_chauffeur [] { code := "AB", nom := "B", prenom := "A" }
        ("PLANNER1")).2
      = [notify_change ("chauffeurs") ("created") (some 1)
          (some ("PLANNER1"))] := by
  refine ⟨rfl, ?_, ?_, rfl, ?_⟩ <;> decide

/-- Claim C3 counterexample: creating a chauffeur whose upper-cased code
equals the code of a stored chauffeur is rejected with HTTP status 400
and nothing is stored — not with status 409 as the claim states
(chauffeurs.py line 173 raises HTTP_400_BAD_REQUEST). -/
theorem C3_counterexample_duplicate_rejected_with_400 :
    (create_chauffeur c3_chauffeurs c3_dup ("ADMIN")).1.1
      = Except.error { status_code := 400,
                       detail := "Un chauffeur avec le code ’abc’ existe déjà" } ∧
    (create_chauffeur c3_chauffeurs c3_dup ("ADMIN")).1.2 = c3_chauffeurs ∧
    (400 : Nat) ≠ 409 := by
  refine ⟨by decide, by decide, by decide⟩

/-- Claim C3 amended: for Route (voyage), Driver (chauffeur) and
Subcontractor (SST) creates, a code that upper-cases to the code of an
already-stored entity of the same kind is rejected — with HTTP status
400 (not 409) — and no new entity is stored. -/
theorem C3_duplicate_code_rejected_nothing_stored :
    (∀ (store : List Chauffeur) (data : ChauffeurCreate) (u : String),
       store.any (fun c => c.code == py_upper data.code) = true →
       (create_chauffeur store data u).1.1
           = Except.error { status_code := 400,
                            detail := "Un chauffeur avec le code ’"
                              ++ data.code ++ "’ existe déjà" } ∧
         (create_chauffeur store data u).1.2 = store) ∧
    (∀ (store : List Voyage) (data : VoyageCreate) (u : String),
       store.any (fun v => v.code == py_upper data.code) = true →
       (create_voyage store data u).1.1
           = Except.error { status_code := 400,
                            detail := "Un voyage avec le code ’"
                              ++ data.code ++ "’ existe déjà" } ∧
         (create_voyage store data u).1.2 = store) ∧
    (∀ (store : List SST) (data : SSTCreate) (u : String),
       store.any (fun s => s.code == py_upper data.code) = true →
       (create_sst store data u).1.1
           = Except.error { status_code := 400,
                            detail := "Un SST avec le code ’"
                              ++ data.code ++ "’ existe deja" } ∧
         (create_sst store data u).1.2 = store) := by
  refine ⟨?_, ?_, ?_⟩ <;>
    (intro store data u h
     constructor
     case left => simp [create_chauffeur, create_voyage, create_sst, h]
     case right => simp [create_chauffeur, create_voyage, create_sst, h])

/-- Witness for C3: the amended theorem applied at the concrete duplicate
instance. -/
theorem C3_duplicate_code_witness :
    (create_chauffeur c3_chauffeurs c3_dup ("ADMIN")).1.2 = c3_chauffeurs :=
  (C3_duplicate_code_rejected_nothing_stored.1 c3_chauffeurs c3_dup
    ("ADMIN") (by decide)).2

/-- Claim C4 counterexample: an attach on GET /ws with no token at all is
accepted and registered under the username anonymous (main.py lines
537-551 allow the token-less path through), so a client is registered
without any token that validates. -/
theorem C4_counterexample_tokenless_attach_registered :
    websocket_attach [] none
      = (.registered ("anonymous"), [("anonymous")]) := rfl

/-- Claim C4 amended: the attach path checks only the JWT decode — a
supplied token whose decode fails is closed with 4001 (expired) or 4002
(invalid) and is never registered — but an attach with no token is
registered as anonymous, and even a successfully decoded token is
registered without any AuthCore session or user check. -/
theorem C4_attach_validation_is_only_jwt_decode (registry : List String) :
    websocket_attach registry (some .expired)
        = (.closed 4001 ("Token expiré"), registry) ∧
    websocket_attach registry (some .invalid)
        = (.closed 4002 ("Token invalide"), registry) ∧
    websocket_attach registry none
        = (.registered ("anonymous"), registry ++ [("anonymous")]) ∧
    (∀ sub, websocket_attach registry (some (.ok sub))
        = (.registered (sub.getD ("anonymous")),
           registry ++ [sub.getD ("anonymous")])) :=
  ⟨rfl, rfl, rfl, fun _ => rfl⟩

/-- Claim C6 counterexample: create_mission accepts and stores a mission
with a negative pallet count and start time after end time — MissionBase
declares no ge=0 bound and no time-ordering validator, and neither the
handler nor the model checks them — so inputs violating the claimed
invariants are stored. -/
theorem C6_counterexample_invalid_mission_stored :
    (create_mission [] c6_bad ("PLANNER1")).1.2
      = [(create_mission [] c6_bad ("PLANNER1")).1.1] ∧
    ((create_mission [] c6_bad ("PLANNER1")).1.1).nb_palettes
      = some (-1) ∧
    ((create_mission [] c6_bad ("PLANNER1")).1.1).heure_debut
      = some ("10:00") ∧
    ((create_mission [] c6_bad ("PLANNER1")).1.1).heure_fin
      = some ("08:00") ∧
    ¬ heure_le ((create_mission [] c6_bad ("PLANNER1")).1.1).heure_debut
        ((create_mission [] c6_bad ("PLANNER1")).1.1).heure_fin := by
  refine ⟨by decide, by decide, by decide, by decide, by decide⟩

/-- Claim C6 amended: create_mission enforces no domain invariant — every
well-typed payload is accepted, and the stored mission carries the
pallet count and times exactly as supplied (negative counts and reversed
time pairs included). -/
theorem C6_mission_fields_stored_unvalidated (store : List Mission)
    (data : MissionCreate) (username : String) :
    ((create_mission store data username).1.1).nb_palettes
      = data.nb_palettes ∧
    ((create_mission store data username).1.1).heure_debut
      = data.heure_debut ∧
    ((create_mission store data username).1.1).heure_fin
      = data.heure_fin ∧
    (create_mission store data username).1.2
      = store ++ [(create_mission store data username).1.1] :=
  ⟨rfl, rfl, rfl, rfl⟩

/-! ### Lockout and login-error theorems (C2, C5) -/

theorem record_failed_login_attempts (now : Nat) (user : AuthUser) :
    (record_failed_login now user).failed_login_attempts
      = user.failed_login_attempts + 1 := by
  unfold record_failed_login
  dsimp only
  split <;> rfl

theorem record_failed_login_locked_of_max (now : Nat) (user : AuthUser)
    (h : MAX_FAILED_ATTEMPTS ≤ user.failed_login_attempts + 1) :
    (record_failed_login now user).locked_until
      = some (now + LOCKOUT_DURATION_MINUTES) := by
  unfold record_failed_login
  dsimp only
  split
  next => rfl
  next hterm => exact absurd h hterm

/-- Evaluation of authenticate on an active, unlocked user whose password
check fails: the counter is bumped and the error message depends on the
remaining attempts. -/
theorem authenticate_wrong_password (now : Nat) (user : AuthUser)
    (hash : String) (pw : String) (ha : user.is_active = true)
    (hl : user.locked_until = none) (hh : user.password_hash = some hash)
    (hv : verify_password pw hash = false) :
    authenticate now (some user) pw
      = (if 0 < (MAX_FAILED_ATTEMPTS : Int)
             - ((user.failed_login_attempts : Int) + 1) then
           AuthOutcome.failure ("Mot de passe incorrect. "
               ++ toString ((MAX_FAILED_ATTEMPTS : Int)
                 - ((user.failed_login_attempts : Int) + 1))
               ++ " tentative(s) restante(s).")
             (some (record_failed_login now user))
         else
           AuthOutcome.failure ("Compte verrouillé pour "
               ++ toString LOCKOUT_DURATION_MINUTES ++ " minutes.")
             (some (record_failed_login now user))) := by
  unfold authenticate
  simp [check_account_locked, ha, hl, hh, hv, record_failed_login_attempts]

/-- Claim C2: a failed password verification on an active, unlocked user
increments failed_attempts and, when the count reaches 5, sets
locked_until = now + 15 minutes; while locked_until is in the future
every login attempt fails regardless of the password; and once
locked_until has passed, a login with the correct password succeeds with
the counter and lock reset. -/
theorem C2_lockout_behaviour :
    (∀ (now : Nat) (user : AuthUser) (hash : String) (pw : String),
       user.is_active = true → user.locked_until = none →
       user.password_hash = some hash → verify_password pw hash = false →
       (authenticate now (some user) pw).isFailure = true ∧
       (authenticate now (some user) pw).postUser
         = some (record_failed_login now user) ∧
       (record_failed_login now user).failed_login_attempts
         = user.failed_login_attempts + 1 ∧
       (MAX_FAILED_ATTEMPTS ≤ user.failed_login_attempts + 1 →
         (record_failed_login now user).locked_until
           = some (now + LOCKOUT_DURATION_MINUTES))) ∧
    (∀ (now : Nat) (user : AuthUser) (t : Nat) (pw : String),
       user.locked_until = some t → now < t →
       (authenticate now (some user) pw).isFailure = true) ∧
    (∀ (now : Nat) (user : AuthUser) (t : Nat) (hash : String)
       (pw : String),
       user.is_active = true → user.locked_until = some t → t ≤ now →
       user.password_hash = some hash → verify_password pw hash = true →
       authenticate now (some user) pw
         = .success { user with failed_login_attempts := 0, locked_until := none }) := by
  refine ⟨?_, ?_, ?_⟩
  · intro now user hash pw ha hl hh hv
    refine ⟨?_, ?_, record_failed_login_attempts now user,
      record_failed_login_locked_of_max now user⟩
    · rw [authenticate_wrong_password now user hash pw ha hl hh hv]
      split <;> rfl
    · rw [authenticate_wrong_password now user hash pw ha hl hh hv]
      split <;> rfl
  · intro now user t pw hl hn
    unfold authenticate
    by_cases ha : user.is_active = false
    · simp [ha, AuthOutcome.isFailure]
    · simp [ha, check_account_locked, hl, hn, AuthOutcome.isFailure]
  · intro now user t hash pw ha hl ht hh hv
    have hnlt : ¬ now < t := not_lt.mpr ht
    unfold authenticate
    simp [ha, check_account_locked, hl, hnlt, hh, hv,
      reset_failed_attempts]

/-- The ALICE account one failed attempt away from lockout. -/
def c2_alice : AuthUser :=
  { username := "ALICE", is_active := true,
    password_hash := some ("Secret1A"), failed_login_attempts := 4,
    locked_until := none }

/-- Witness for C2: the theorem applied to a concrete user with four
prior failures and a wrong password — the fifth failure locks for 15
minutes. -/
theorem C2_lockout_witness :
    (authenticate 1000 (some c2_alice) ("bad")).isFailure = true ∧
    (record_failed_login 1000 c2_alice).locked_until
      = some (1000 + LOCKOUT_DURATION_MINUTES) := by
  have h := C2_lockout_behaviour.1 1000 c2_alice ("Secret1A") ("bad")
    rfl rfl rfl (by decide)
  exact ⟨h.1, h.2.2.2 (by decide)⟩

theorem ne_of_head_m (r : String) (s : String) :
    ("Mot de passe incorrect. " ++ r ++ s) ≠ "Identifiants invalides" := by
  intro he
  have h : some ('M') = some ('I') := by
    calc some ('M')
        = (("Mot de passe incorrect. " ++ r ++ s).data).head? := rfl
      _ = (("Identifiants invalides" : String).data).head? := by rw [he]
      _ = some ('I') := rfl
  exact absurd (Option.some.inj h) (by decide)

def c5_user : AuthUser :=
  { username := "USER1", is_active := true,
    password_hash := some ("Secret1A"), failed_login_attempts := 0,
    locked_until := none }

/-- Claim C5 counterexample: the login failure for an unknown username
and the failure for an existing user with a wrong password carry
different detail strings — "Identifiants invalides" against the
remaining-attempts message — so the two cases are distinguishable and
the response discloses that the user exists. -/
theorem C5_counterexample_distinguishable_errors :
    login_route 0 none ("Secret1B")
      = Except.error { status_code := 401,
                       detail := "Identifiants invalides" } ∧
    login_route 0 (some c5_user) ("Secret1B")
      = Except.error { status_code := 401,
                       detail := "Mot de passe incorrect. 4 tentative(s) restante(s)." } ∧
    ("Identifiants invalides" : String)
      ≠ "Mot de passe incorrect. 4 tentative(s) restante(s)." := by
  refine ⟨by decide, by decide, by decide⟩

/-- Claim C5 amended: both failed attempts return the same HTTP status
401, but the detail strings differ — the unknown-username failure says
"Identifiants invalides" while the wrong-password failure for an
existing active user never does — so the error body does distinguish the
two cases. -/
theorem C5_failures_both_401_but_details_differ
    (now : Nat) (user : AuthUser) (hash : String) (pw : String)
    (ha : user.is_active = true) (hl : user.locked_until = none)
    (hh : user.password_hash = some hash)
    (hv : verify_password pw hash = false) :
    login_route now none pw
      = Except.error { status_code := 401,
                       detail := "Identifiants invalides" } ∧
    ∃ msg, login_route now (some user) pw
        = Except.error { status_code := 401, detail := msg } ∧
      msg ≠ "Identifiants invalides" := by
  constructor
  · rfl
  · unfold login_route
    rw [authenticate_wrong_password now user hash pw ha hl hh hv]
    by_cases hc : 0 < (MAX_FAILED_ATTEMPTS : Int)
        - ((user.failed_login_attempts : Int) + 1)
    · rw [if_pos hc]
      exact ⟨_, rfl, ne_of_head_m _ _⟩
    · rw [if_neg hc]
      exact ⟨_, rfl, by decide⟩

/-- Witness for C5: the amended theorem at a concrete user and wrong
password. -/
theorem C5_witness :
    login_route 0 none ("Secret1B")
      = Except.error { status_code := 401,
                       detail := "Identifiants invalides" } ∧
    ∃ msg, login_route 0 (some c5_user) ("Secret1B")
        = Except.error { status_code := 401, detail := msg } ∧
      msg ≠ "Identifiants invalides" :=
  C5_failures_both_401_but_details_differ 0 c5_user ("Secret1A")
    ("Secret1B") rfl rfl rfl (by decide)

/-! ### Driver availability partition (C7) -/

theorem mem_indispo_ids (dispos : List ChauffeurDispo) (d : Nat) (i : Nat) :
    i ∈ indispo_ids dispos d ↔
      ∃ dp, dp ∈ dispos ∧ dp.chauffeur_id = i ∧
        dp.date_debut ≤ d ∧ d ≤ dp.date_fin := by
  unfold indispo_ids
  simp only [List.mem_map, List.mem_filter, decide_eq_true_eq]
  constructor
  · rintro ⟨dp, ⟨hm, hcov⟩, hid⟩
    exact ⟨dp, hm, hid, hcov.1, hcov.2⟩
  · rintro ⟨dp, hm, hid, h1, h2⟩
    exact ⟨dp, ⟨hm, ⟨h1, h2⟩⟩, hid⟩

/-- Claim C7: for any date, GET /chauffeurs/disponibles/{D} splits the
active drivers into two lists that are disjoint, jointly exhaust the
active drivers, and place a driver under indisponibles exactly when one
of that driver's unavailabilities covers the date. -/
theorem C7_available_drivers_partition (chauffeurs : List Chauffeur)
    (dispos : List ChauffeurDispo) (d : Nat) :
    (∀ x, x ∈ (get_chauffeurs_disponibles chauffeurs dispos d).1 →
       ¬ x ∈ (get_chauffeurs_disponibles chauffeurs dispos d).2) ∧
    (∀ x, (x ∈ (get_chauffeurs_disponibles chauffeurs dispos d).1 ∨
           x ∈ (get_chauffeurs_disponibles chauffeurs dispos d).2) ↔
       ∃ c, c ∈ chauffeurs ∧ c.is_active = true ∧ c.listing = x) ∧
    (∀ c, c ∈ chauffeurs → c.is_active = true →
       (c.listing ∈ (get_chauffeurs_disponibles chauffeurs dispos d).2 ↔
        ∃ dp, dp ∈ dispos ∧ dp.chauffeur_id = c.id ∧
          dp.date_debut ≤ d ∧ d ≤ dp.date_fin)) := by
  refine ⟨?_, ?_, ?_⟩
  · intro x h1 h2
    simp only [get_chauffeurs_disponibles, List.mem_map, List.mem_filter,
      decide_eq_true_eq] at h1 h2
    rcases h1 with ⟨c1, ⟨⟨hm1, ha1⟩, hp1⟩, hx1⟩
    rcases h2 with ⟨c2, ⟨⟨hm2, ha2⟩, hp2⟩, hx2⟩
    have hid : c1.id = c2.id :=
      congrArg DispoListing.id (hx1.trans hx2.symm)
    rw [hid] at hp1
    exact hp1 hp2
  · intro x
    simp only [get_chauffeurs_disponibles, List.mem_map, List.mem_filter,
      decide_eq_true_eq]
    constructor
    · rintro (⟨c, ⟨⟨hm, ha⟩, _⟩, hx⟩ | ⟨c, ⟨⟨hm, ha⟩, _⟩, hx⟩) <;>
        exact ⟨c, hm, ha, hx⟩
    · rintro ⟨c, hm, ha, hx⟩
      by_cases hp : c.id ∈ indispo_ids dispos d
      · exact Or.inr ⟨c, ⟨⟨hm, ha⟩, hp⟩, hx⟩
      · exact Or.inl ⟨c, ⟨⟨hm, ha⟩, hp⟩, hx⟩
  · intro c hm ha
    simp only [get_chauffeurs_disponibles, List.mem_map, List.mem_filter,
      decide_eq_true_eq]
    constructor
    · rintro ⟨c2, ⟨⟨_, _⟩, hp2⟩, hx2⟩
      have hid : c2.id = c.id := congrArg DispoListing.id hx2
      rw [hid] at hp2
      exact (mem_indispo_ids dispos d c.id).mp hp2
    · intro hcov
      exact ⟨c, ⟨⟨hm, ha⟩, (mem_indispo_ids dispos d c.id).mpr hcov⟩, rfl⟩

/-- The spec §8 scenario 5 driver and unavailability window (2025-04-01
to 2025-04-05 as day indices 401..405). -/
def c7_driver : Chauffeur :=
  { id := 3, code := "DRV", nom := "Roy", prenom := "Dan",
    is_active := true }

def c7_dispo : ChauffeurDispo :=
  { id := 1, chauffeur_id := 3, date_debut := 401, date_fin := 405 }

/-- Witness for C7: the partition theorem applied to the scenario 5
instance — the covered driver lands in indisponibles. -/
theorem C7_witness :
    c7_driver.listing
      ∈ (get_chauffeurs_disponibles [c7_driver] [c7_dispo] 403).2 :=
  ((C7_available_drivers_partition [c7_driver] [c7_dispo] 403).2.2
      c7_driver (by decide) rfl).mpr
    ⟨c7_dispo, by decide, rfl, by decide, by decide⟩

/-! ### Missions-by-date ordering (C8) -/

def c8_null_mission : Mission :=
  { id := 1, date_mission := 50, heure_debut := none, heure_fin := none,
    voyage_id := none, chauffeur_id := none, sst_id := none,
    nb_palettes := some 0, statut := "planifie", created_by := none,
    updated_by := none }

def c8_timed_mission : Mission :=
  { c8_null_mission with id := 2, heure_debut := some ("08:00") }

def c8_store : List Mission := [c8_timed_mission, c8_null_mission]

/-- Claim C8 counterexample: on a store holding one mission with a null
start time and one starting at 08:00 on the same date, the route returns
the null-start mission FIRST — SQLite sorts NULLs first under ascending
ORDER BY — while the claim requires null start times to be placed
last. -/
theorem C8_counterexample_null_start_first :
    get_missions_by_date c8_store 50
      = [c8_null_mission, c8_timed_mission] ∧
    c8_null_mission.heure_debut = none ∧
    c8_timed_mission.heure_debut = some ("08:00") := by
  refine ⟨by decide, rfl, rfl⟩

/-- Claim C8 amended: the list returned by missions_by_date is exactly
the missions of the requested date, ordered by start_time ascending with
null start times placed FIRST (SQLite's NULL ordering), not last. -/
theorem C8_missions_by_date_sorted_nulls_first (store : List Mission)
    (d : Nat) :
    List.Sorted mission_order (get_missions_by_date store d) ∧
    List.Perm (get_missions_by_date store d)
      (store.filter (fun m => m.date_mission == d)) ∧
    (∀ m ∈ get_missions_by_date store d, m.date_mission = d) := by
  refine ⟨List.sorted_insertionSort mission_order _,
    List.perm_insertionSort mission_order _, ?_⟩
  intro m hm
  have hmem : m ∈ store.filter (fun m => m.date_mission == d) :=
    (List.perm_insertionSort mission_order
      (store.filter (fun m => m.date_mission == d))).mem_iff.mp hm
  have := (List.mem_filter.mp hmem).2
  simpa using this

/-- Witness for C8: the amended theorem at the concrete two-mission
store. -/
theorem C8_witness :
    List.Sorted mission_order (get_missions_by_date c8_store 50) ∧
    List.Perm (get_missions_by_date c8_store 50)
      (c8_store.filter (fun m => m.date_mission == 50)) :=
  ⟨(C8_missions_by_date_sorted_nulls_first c8_store 50).1,
   (C8_missions_by_date_sorted_nulls_first c8_store 50).2.1⟩

/-! ### Session deactivation is permanent (C9) -/

theorem applyOp_preserves_dead (t : List UserSession) (op : SessionOp)
    (sid : String) (hdead : DeadSid t sid)
    (hfresh : ∀ s ∈ newSids op, s ≠ sid) :
    DeadSid (applyOp t op) sid := by
  cases op with
  | login s uid now expires =>
    intro u hu hid
    rcases List.mem_append.mp hu with h | h
    · exact hdead u h hid
    · have hus : u = mkSession s uid now expires := by
        simpa using h
      rw [hus] at hid
      exact absurd hid (hfresh s (by simp [newSids]))
  | logout s =>
    intro u hu hid
    rcases List.mem_map.mp hu with ⟨y, hy, hyu⟩
    by_cases hc : y.session_id = s
    · rw [← hyu]; simp [hc]
    · rw [← hyu] at hid ⊢
      simp only [if_neg hc] at hid ⊢
      exact hdead y hy hid
  | validate s now =>
    intro u hu hid
    rcases List.mem_map.mp hu with ⟨y, hy, hyu⟩
    by_cases hc : y.session_id = s ∧ y.is_active = true ∧ now < y.expires_at
    · rw [← hyu] at hid ⊢
      simp only [if_pos hc] at hid ⊢
      exact hdead y hy hid
    · rw [← hyu] at hid ⊢
      simp only [if_neg hc] at hid ⊢
      exact hdead y hy hid
  | force_disconnect uid =>
    intro u hu hid
    rcases List.mem_map.mp hu with ⟨y, hy, hyu⟩
    by_cases hc : y.user_id = uid ∧ y.is_active = true
    · rw [← hyu]; simp [hc]
    · rw [← hyu] at hid ⊢
      simp only [if_neg hc] at hid ⊢
      exact hdead y hy hid
  | refresh oldSid newSid uid now expires =>
    intro u hu hid
    rcases List.mem_append.mp hu with h | h
    · rcases List.mem_map.mp h with ⟨y, hy, hyu⟩
      by_cases hc : y.session_id = oldSid
      · rw [← hyu]; simp [hc]
      · rw [← hyu] at hid ⊢
        simp only [if_neg hc] at hid ⊢
        exact hdead y hy hid
    · have hus : u = mkSession newSid uid now expires := by
        simpa using h
      rw [hus] at hid
      exact absurd hid (hfresh newSid (by simp [newSids]))
  | kick s =>
    intro u hu hid
    exact hdead u (List.mem_filter.mp hu).1 hid
  | kickAll =>
    intro u hu _
    exact absurd hu (List.not_mem_nil u)
  | sweep now =>
    intro u hu hid
    rcases List.mem_map.mp hu with ⟨y, hy, hyu⟩
    by_cases hc : y.expires_at ≤ now
    · rw [← hyu]; simp [hc]
    · rw [← hyu] at hid ⊢
      simp only [if_neg hc] at hid ⊢
      exact hdead y hy hid

/-- Claim C9: over any trace of session-table operations whose inserted
session ids are fresh (session_id is a unique random column), a session
id whose rows are all inactive stays inactive forever — no operation
ever flips is_active back to true — and a login inserts a brand-new row,
leaving every existing row untouched. -/
theorem C9_inactive_sessions_never_reactivated :
    (∀ (t : List UserSession) (ops : List SessionOp) (sid : String),
       DeadSid t sid → (∀ op ∈ ops, ∀ s ∈ newSids op, s ≠ sid) →
       DeadSid (applyOps t ops) sid) ∧
    (∀ (t : List UserSession) (sid : String) (uid : Nat) (now : Nat)
       (expires : Nat),
       applyOp t (.login sid uid now expires)
         = t ++ [mkSession sid uid now expires]) := by
  constructor
  · intro t ops
    induction ops generalizing t with
    | nil => intro sid h _; exact h
    | cons op ops ih =>
      intro sid hdead hfresh
      exact ih (applyOp t op) sid
        (applyOp_preserves_dead t op sid hdead
          (hfresh op (by simp)))
        (fun o ho => hfresh o (by simp [ho]))
  · intro t sid uid now expires
    rfl

/-- A revoked session of user 1. -/
def c9_dead : UserSession :=
  { session_id := "S1", user_id := 1, created_at := 0, last_activity := 0,
    expires_at := 100, is_active := false }

/-- Witness for C9: a concrete trace — validate of the revoked id, then a
fresh login — leaves every row with id S1 inactive. -/
theorem C9_witness :
    DeadSid (applyOps [c9_dead]
      [SessionOp.validate ("S1") 5, SessionOp.login ("S2") 2 5 485])
      ("S1") :=
  C9_inactive_sessions_never_reactivated.1 [c9_dead]
    [SessionOp.validate ("S1") 5, SessionOp.login ("S2") 2 5 485] ("S1")
    (by unfold DeadSid; decide) (by unfold newSids; decide)

/-! ### Backup restore without a live database (C10) -/

/-- Claim C10: when the named snapshot exists but the live database file
does not, restore_backup copies the snapshot into place as the live file
and then raises NameError on the unbound safety_backup local, so the
admin route — which catches only FileNotFoundError — surfaces HTTP 500
Internal although the live file was replaced. -/
theorem C10_restore_missing_live_copies_then_nameerror (fs : BackupFs)
    (fn : String) (sn : String) (content : String)
    (hsnap : lookupSnapshot fs fn = some content)
    (hlive : fs.live = none) :
    restore_backup fs fn sn
      = (Except.error (PyExn.nameError ("safety_backup")),
         { fs with live := some content }) ∧
    restore_backup_route fs fn sn
      = (Except.error { status_code := 500,
                        detail := "Internal Server Error" },
         { fs with live := some content }) := by
  have h1 : restore_backup fs fn sn
      = (Except.error (PyExn.nameError ("safety_backup")),
         { fs with live := some content }) := by
    unfold restore_backup
    rw [hsnap, hlive]
    rfl
  refine ⟨h1, ?_⟩
  unfold restore_backup_route
  rw [h1]

/-- A backup directory holding one snapshot, with no live database. -/
def c10_fs : BackupFs :=
  { snapshots := [("backup_1.db", "snapshotdata")], live := none }

/-- Witness for C10: the theorem at the concrete snapshot-only file
state. -/
theorem C10_witness :
    restore_backup c10_fs ("backup_1.db") ("pre_restore_1.db")
      = (Except.error (PyExn.nameError ("safety_backup")),
         { c10_fs with live := some ("snapshotdata") }) ∧
    restore_backup_route c10_fs ("backup_1.db") ("pre_restore_1.db")
      = (Except.error { status_code := 500,
                        detail := "Internal Server Error" },
         { c10_fs with live := some ("snapshotdata") }) :=
  C10_restore_missing_live_copies_then_nameerror c10_fs ("backup_1.db")
    ("pre_restore_1.db") ("snapshotdata") (by decide) rfl

end TomatoPlan
